import Mathlib

/-!
Verification of the Pulse STT WebSocket streaming proxy and its browser audio
encoder, as implemented in
blog-code-samples/pulse-stt-developer-guide/demo-app (ws-proxy.js, embedded in
route.ts, and page.tsx) and the variant proxy in part_003.

The embedding is shallow: each connection-event handler of the proxy becomes a
Lean function on an explicit session state, float samples become rationals,
16-bit machine integers become Int with an explicit wrap at 2^16, and the JSON
parsing done by the JavaScript builtin JSON.parse / JSON.stringify is modelled
on the flat fragment of JSON the proxy actually exchanges (objects whose values
are strings or integers, plus bare string and integer literals, with
whitespace). On that fragment the model agrees with the builtin: parsing is
permissive about whitespace, printing emits none, and property access on a
parsed object returns the last binding of a duplicated key.
-/

namespace PulseProxy

/-- Double-quote character, written by code point to keep literals simple. -/
def quoteC : Char := Char.ofNat 34

/-- Opening brace character. -/
def lbrace : Char := Char.ofNat 123

/-- Closing brace character. -/
def rbrace : Char := Char.ofNat 125

/-- Backslash character. -/
def backslashC : Char := Char.ofNat 92

/-- JSON whitespace recognised by the model. -/
def isWsChar (c : Char) : Bool :=
  c = ' ' || c = Char.ofNat 9 || c = Char.ofNat 10 || c = Char.ofNat 13

/-- Drop leading JSON whitespace. -/
def skipWs : List Char → List Char
  | [] => []
  | c :: cs => if isWsChar c then skipWs cs else c :: cs

/-- Scalar JSON values exchanged by the proxy: strings and integers. -/
inductive JScalar
  | jstr : String → JScalar
  | jnum : Int → JScalar
  deriving DecidableEq, Repr

/-- JSON values in the flat fragment the proxy exchanges: a scalar, or an
object whose fields are scalars. -/
inductive JVal
  | scalar : JScalar → JVal
  | jobj : List (String × JScalar) → JVal
  deriving DecidableEq, Repr

/-- Read the body of a string literal up to the closing quote. Escape
sequences are outside the modelled fragment, so a backslash fails. -/
def takeStringBody : List Char → Option (List Char × List Char)
  | [] => none
  | c :: cs =>
    if c = quoteC then some ([], cs)
    else if c = backslashC then none
    else (takeStringBody cs).map (fun p => (c :: p.1, p.2))

/-- Parse a quoted string literal. -/
def parseStringLit (cs : List Char) : Option (String × List Char) :=
  match cs with
  | c :: rest =>
    if c = quoteC then (takeStringBody rest).map (fun p => (String.mk p.1, p.2))
    else none
  | [] => none

/-- Split off a maximal run of decimal digits. -/
def takeDigits : List Char → (List Char × List Char)
  | [] => ([], [])
  | c :: cs =>
    if c.isDigit then
      let p := takeDigits cs
      (c :: p.1, p.2)
    else ([], c :: cs)

/-- Numeric value of a digit run. -/
def digitsToNat (ds : List Char) : Nat :=
  ds.foldl (fun acc c => acc * 10 + (c.toNat - 48)) 0

/-- Parse an integer literal, with an optional leading minus sign. -/
def parseIntLit (cs : List Char) : Option (Int × List Char) :=
  match cs with
  | '-' :: rest =>
    let p := takeDigits rest
    if p.1 = [] then none else some (-(digitsToNat p.1 : Int), p.2)
  | _ =>
    let p := takeDigits cs
    if p.1 = [] then none else some ((digitsToNat p.1 : Int), p.2)

/-- Parse a scalar JSON value: a string literal or an integer literal. -/
def parseScalar (cs : List Char) : Option (JScalar × List Char) :=
  match cs with
  | c :: _ =>
    if c = quoteC then (parseStringLit cs).map (fun p => (JScalar.jstr p.1, p.2))
    else (parseIntLit cs).map (fun p => (JScalar.jnum p.1, p.2))
  | [] => none

/-- Parse one object member: a quoted key, a colon, a scalar value. -/
def parseMember (cs : List Char) : Option ((String × JScalar) × List Char) :=
  match parseStringLit (skipWs cs) with
  | none => none
  | some (key, rest) =>
    match skipWs rest with
    | ':' :: rest2 =>
      match parseScalar (skipWs rest2) with
      | some (v, rest3) => some ((key, v), rest3)
      | none => none
    | _ => none

/-- Parse a comma-separated member list, stopping before the closing brace.
Fuel bounds recursion by the remaining input length. -/
def parseMembersFuel : Nat → List Char → Option (List (String × JScalar) × List Char)
  | 0, _ => none
  | fuel + 1, cs =>
    match parseMember cs with
    | none => none
    | some (m, rest) =>
      match skipWs rest with
      | c :: rest2 =>
        if c = ',' then
          match parseMembersFuel fuel rest2 with
          | some (ms, rest3) => some (m :: ms, rest3)
          | none => none
        else if c = rbrace then some ([m], c :: rest2)
        else none
      | [] => none

/-- Parse a JSON object in the flat fragment. -/
def parseObj (cs : List Char) : Option (JVal × List Char) :=
  match cs with
  | c :: rest =>
    if c = lbrace then
      match skipWs rest with
      | d :: rest2 =>
        if d = rbrace then some (JVal.jobj [], rest2)
        else
          match parseMembersFuel (d :: rest2).length (d :: rest2) with
          | some (ms, rest3) =>
            match rest3 with
            | e :: rest4 => if e = rbrace then some (JVal.jobj ms, rest4) else none
            | [] => none
          | none => none
      | [] => none
    else none
  | [] => none

/-- Model of JSON.parse on the flat fragment: an object or a bare scalar,
surrounded by optional whitespace, with nothing trailing. Inputs outside the
fragment are rejected, matching the code path taken when JSON.parse throws. -/
def parseJson (s : String) : Option JVal :=
  let cs := skipWs s.toList
  let r : Option (JVal × List Char) :=
    match cs with
    | c :: _ =>
      if c = lbrace then parseObj cs
      else (parseScalar cs).map (fun p => (JVal.scalar p.1, p.2))
    | [] => none
  match r with
  | some (v, rest) => if skipWs rest = [] then some v else none
  | none => none

/-- Quote a string for output; the fragment carries no escapes. -/
def quoteStr (s : String) : String :=
  String.mk (quoteC :: s.toList ++ [quoteC])

/-- Print a scalar. -/
def stringifyScalar : JScalar → String
  | JScalar.jstr s => quoteStr s
  | JScalar.jnum n => toString n

/-- Model of JSON.stringify on the flat fragment: no whitespace is emitted. -/
def stringifyJson : JVal → String
  | JVal.scalar v => stringifyScalar v
  | JVal.jobj ms =>
    String.mk (lbrace ::
      (String.intercalate ","
        (ms.map (fun p => quoteStr p.1 ++ ":" ++ stringifyScalar p.2))).toList
      ++ [rbrace])

/-- Property access msg.type on a parsed value: on an object the last binding
of the key wins (as JSON.parse keeps the last duplicate); on a scalar the
access yields undefined, modelled as none. -/
def jGet (v : JVal) (k : String) : Option JScalar :=
  match v with
  | JVal.jobj ms => ms.reverse.lookup k
  | JVal.scalar _ => none

/-- Connection readyState, as in the WebSocket API constants used by the
proxy (CONNECTING, OPEN, CLOSING, CLOSED). -/
inductive WsState
  | CONNECTING
  | OPEN
  | CLOSING
  | CLOSED
  deriving DecidableEq, Repr

/-- A frame on the client connection: a binary buffer (Buffer.isBuffer true)
or a text frame carrying a string. -/
inductive Frame
  | bin : List Nat → Frame
  | txt : String → Frame
  deriving DecidableEq, Repr

/-- Whether a frame is binary. -/
def Frame.isBin : Frame → Bool
  | Frame.bin _ => true
  | Frame.txt _ => false

/-- The wire form of the end-of-stream control message the proxy sends
upstream: JSON.stringify of an object with field type set to end. -/
def endWire : String :=
  stringifyJson (JVal.jobj [("type", JScalar.jstr "end")])

/-- Handler clientWs.on message of ws-proxy.js: with the upstream connection
OPEN, a binary frame is forwarded as-is; a text frame is parsed as JSON, an
end control message is forwarded as the canonical end marker, any other parsed
message is dropped, and a frame that fails to parse is forwarded as-is (the
catch branch treats it as audio). When the upstream is not OPEN the frame is
discarded. The function returns the updated list of frames sent upstream. -/
def onClientMessage (pulseState : WsState) (sent : List Frame) (data : Frame) :
    List Frame :=
  if pulseState = WsState.OPEN then
    match data with
    | Frame.bin _ => sent ++ [data]
    | Frame.txt s =>
      match parseJson s with
      | some msg =>
        if jGet msg "type" = some (JScalar.jstr "end") then sent ++ [Frame.txt endWire]
        else sent
      | none => sent ++ [data]
  else sent

/-- The ordered sequence of frames the upstream connection observes when the
client sends the given frames while the upstream stays OPEN. -/
def upstreamSent (frames : List Frame) : List Frame :=
  frames.foldl (onClientMessage WsState.OPEN) []

/-- Handler pulseWs.on message of ws-proxy.js: the payload is parsed as JSON
only to log it; both the success and the failure branch send the received
payload (data.toString) to the client. -/
def onPulseMessage (data : String) : String :=
  match parseJson data with
  | some _ => data
  | none => data

/-- Handler pulseWs.on message of the variant proxy (part_003): on parse
success the client receives JSON.stringify of the parsed message, on parse
failure the raw payload. -/
def onPulseMessageStt (data : String) : String :=
  match parseJson data with
  | some message => stringifyJson message
  | none => data

/-- Per-session proxy state: the readyState of the client and upstream
connections and the ordered list of payloads sent to the client. -/
structure Session where
  client : WsState
  pulse : WsState
  toClient : List String
  deriving DecidableEq, Repr

/-- The error event payload built by pulseWs.on error. -/
def errorEvent (message : String) : String :=
  stringifyJson (JVal.jobj [("type", JScalar.jstr "error"),
                            ("message", JScalar.jstr message)])

/-- The closed event payload built by pulseWs.on close. -/
def closedEvent (code : Int) (reason : String) : String :=
  stringifyJson (JVal.jobj [("type", JScalar.jstr "closed"),
                            ("code", JScalar.jnum code),
                            ("reason", JScalar.jstr reason)])

/-- Handler pulseWs.on error of ws-proxy.js: it sends one structured error
event to the client and returns; neither connection is closed by it. -/
def onPulseError (s : Session) (message : String) : Session :=
  { s with toClient := s.toClient ++ [errorEvent message] }

/-- The upstream close event: the transport has reached CLOSED and the handler
pulseWs.on close runs, sending a closed notification to the client. The
handler contains no call that closes the client connection. -/
def onPulseClose (s : Session) (code : Int) (reason : String) : Session :=
  { s with pulse := WsState.CLOSED,
           toClient := s.toClient ++ [closedEvent code reason] }

/-- The client close event: the client connection has reached CLOSED and the
handler clientWs.on close runs; it calls pulseWs.close() only when the
upstream readyState is OPEN, moving it to CLOSING. -/
def onClientClose (s : Session) : Session :=
  let s1 : Session := { s with client := WsState.CLOSED }
  if s1.pulse = WsState.OPEN then { s1 with pulse := WsState.CLOSING } else s1

/-- Model of url.searchParams.get: the value of the first occurrence of the
key in the query, none when absent. -/
def getQueryParam (query : List (String × String)) (k : String) : Option String :=
  query.lookup k

/-- The language taken from the client query in wss.on connection: the
JavaScript or-default makes both an absent parameter and an empty string fall
back to en. -/
def languageOf (query : List (String × String)) : String :=
  match getQueryParam query "language" with
  | none => "en"
  | some v => if v = "" then "en" else v

/-- The URLSearchParams the proxy builds for the upstream connection:
language from the client, every other parameter fixed. -/
def pulseParams (query : List (String × String)) : List (String × String) :=
  [("language", languageOf query),
   ("encoding", "linear16"),
   ("sample_rate", "16000"),
   ("word_timestamps", "true"),
   ("full_transcript", "true")]

/-- URLSearchParams.toString on parameters needing no percent-encoding. -/
def encodeParams (ps : List (String × String)) : String :=
  String.intercalate "&" (ps.map (fun p => p.1 ++ "=" ++ p.2))

/-- The upstream WebSocket URL built by ws-proxy.js. -/
def pulseUrl (query : List (String × String)) : String :=
  "wss://waves-api.smallest.ai/api/v1/pulse/get_text?" ++ encodeParams (pulseParams query)

/-!
Audio frame encoder of page.tsx (onaudioprocess): linear-interpolation
resampling to 16000 Hz followed by Float32 to Int16 PCM conversion. Float
samples are embedded as rationals; Int16Array element assignment is embedded
as truncation toward zero followed by a wrap at 2^16.
-/

/-- Math.round of JavaScript: floor of the argument plus one half. -/
def jsRound (q : ℚ) : ℤ := ⌊q + 1 / 2⌋

/-- Truncation toward zero, as JavaScript ToInteger does. -/
def jsTrunc (q : ℚ) : ℤ := if 0 ≤ q then ⌊q⌋ else ⌈q⌉

/-- Int16Array element assignment: truncate, wrap modulo 2^16, reinterpret as
a signed 16-bit value. -/
def toInt16 (q : ℚ) : ℤ := (jsTrunc q + 32768) % 65536 - 32768

/-- srcIndexFloor of the resampling loop: floor of i times ratio, with ratio
the capture rate over 16000. -/
def srcIndexFloorAt (actualSampleRate : ℚ) (i : Nat) : ℤ :=
  ⌊(i : ℚ) * (actualSampleRate / 16000)⌋

/-- srcIndexCeil of the resampling loop: the next index, clamped to the last
valid input index. -/
def srcIndexCeilAt (actualSampleRate : ℚ) (len : Nat) (i : Nat) : ℤ :=
  min (srcIndexFloorAt actualSampleRate i + 1) ((len : ℤ) - 1)

/-- newLength of the resampling loop: Math.round of input.length over ratio. -/
def newLengthAt (actualSampleRate : ℚ) (len : Nat) : Nat :=
  (jsRound ((len : ℚ) / (actualSampleRate / 16000))).toNat

/-- The resampling step of onaudioprocess: when the capture rate differs from
16000 Hz, each output sample linearly blends the two nearest input samples;
otherwise the input is passed through. Out-of-range indexing (which the code
never performs, see the index-safety theorem) falls back to 0. -/
def resample (input : List ℚ) (actualSampleRate : ℚ) : List ℚ :=
  if actualSampleRate ≠ 16000 then
    (List.range (newLengthAt actualSampleRate input.length)).map (fun (i : Nat) =>
      let srcIndex : ℚ := (i : ℚ) * (actualSampleRate / 16000)
      let fraction : ℚ := srcIndex - ((srcIndexFloorAt actualSampleRate i : ℤ) : ℚ)
      input.getD (srcIndexFloorAt actualSampleRate i).toNat 0 * (1 - fraction) +
        input.getD (srcIndexCeilAt actualSampleRate input.length i).toNat 0 * fraction)
  else input

/-- The Float32 to Int16 conversion of one sample: clamp to the unit interval,
then scale negatives by 32768 and non-negatives by 32767. -/
def pcmSample (x : ℚ) : ℤ :=
  let s := max (-1) (min 1 x)
  if s < 0 then toInt16 (s * 32768) else toInt16 (s * 32767)

/-- The Float32 to Int16 conversion loop over the resampled buffer. -/
def pcmEncode (resampled : List ℚ) : List ℤ :=
  resampled.map pcmSample

/-- The end-of-stream control message as a browser client sends it. -/
def endJsonInput : String :=
  String.mk (lbrace :: "\"type\":\"end\"".toList ++ [rbrace])

/-- An upstream JSON payload containing whitespace after the colon. -/
def spacedJsonInput : String :=
  String.mk (lbrace :: "\"a\": 1".toList ++ [rbrace])

/-- The same payload as JSON.stringify re-emits it, without the whitespace. -/
def compactJsonOutput : String :=
  String.mk (lbrace :: "\"a\":1".toList ++ [rbrace])

theorem foldl_onClientMessage_bin (frames : List Frame) (acc : List Frame)
    (h : ∀ f ∈ frames, f.isBin = true) :
    frames.foldl (onClientMessage WsState.OPEN) acc = acc ++ frames := by
  induction frames generalizing acc with
  | nil => simp
  | cons f fs ih =>
    cases f with
    | bin b =>
      simp only [List.foldl_cons]
      rw [ih _ (fun g hg => h g (List.mem_cons_of_mem _ hg))]
      simp [onClientMessage]
    | txt s => exact absurd (h _ (List.mem_cons_self _ _)) (by simp [Frame.isBin])

/-- C8: a sequence of binary audio frames received while the upstream
connection is OPEN is observed upstream as exactly the same ordered
sequence. -/
theorem c8_order_preserved (frames : List Frame)
    (h : ∀ f ∈ frames, f.isBin = true) :
    upstreamSent frames = frames := by
  unfold upstreamSent
  rw [foldl_onClientMessage_bin frames [] h]
  simp

theorem c8_order_preserved_witness :
    (∀ f ∈ [Frame.bin [1], Frame.bin [2, 3]], f.isBin = true) ∧
      upstreamSent [Frame.bin [1], Frame.bin [2, 3]] = [Frame.bin [1], Frame.bin [2, 3]] :=
  ⟨by decide, c8_order_preserved [Frame.bin [1], Frame.bin [2, 3]] (by decide)⟩

/-- C2 counterexample: after the client has sent the end-of-stream control
message (which the proxy forwards upstream), a further binary audio frame is
still forwarded to the upstream connection, because the proxy keeps no
end-of-stream state; the claim says such a frame is never forwarded. -/
theorem c2_audio_after_end_forwarded :
    upstreamSent [Frame.txt endJsonInput, Frame.bin [0, 1, 2]] =
        [Frame.txt endWire, Frame.bin [0, 1, 2]] ∧
      Frame.bin [0, 1, 2] ∈ upstreamSent [Frame.txt endJsonInput, Frame.bin [0, 1, 2]] := by
  decide

/-- C2 (amended): the client-message handler keeps no end-of-stream state;
a binary audio frame is forwarded upstream whenever the upstream connection
is OPEN, regardless of the frames (including an end-of-stream control
message) that preceded it. -/
theorem c2_forwarding_ignores_end_amended (sent : List Frame) (b : List Nat) :
    onClientMessage WsState.OPEN sent (Frame.bin b) = sent ++ [Frame.bin b] := by
  simp [onClientMessage]

/-- C3 counterexample: a text frame from the client that fails to parse as
JSON is not dropped: the catch branch forwards it to the upstream connection
as if it were audio. -/
theorem c3_unparseable_frame_forwarded :
    onClientMessage WsState.OPEN [] (Frame.txt "hello") = [Frame.txt "hello"] ∧
      Frame.txt "hello" ∈ onClientMessage WsState.OPEN [] (Frame.txt "hello") := by
  decide

/-- C3 (amended): an inbound text frame from the local caller that fails to
parse as JSON is forwarded as-is to the upstream connection (treated as
audio by the catch branch); the session continues and is not terminated. -/
theorem c3_parse_failure_amended (s : String) (sent : List Frame)
    (h : parseJson s = none) :
    onClientMessage WsState.OPEN sent (Frame.txt s) = sent ++ [Frame.txt s] := by
  simp [onClientMessage, h]

theorem c3_parse_failure_witness :
    parseJson "hello" = none ∧
      onClientMessage WsState.OPEN [] (Frame.txt "hello") = [] ++ [Frame.txt "hello"] :=
  ⟨by decide, c3_parse_failure_amended "hello" [] (by decide)⟩

/-- C7 counterexample: the upstream-message handler of the variant proxy
(part_003) re-serializes the parsed JSON on parse success, so the payload
delivered to the client differs from the received payload whenever the
received payload contains whitespace. -/
theorem c7_stt_reserializes_payload :
    onPulseMessageStt spacedJsonInput ≠ spacedJsonInput ∧
      onPulseMessageStt spacedJsonInput = compactJsonOutput := by
  decide

/-- C7 (amended): the ws-proxy.js upstream-message handler delivers the
received payload in both the parse-success and the parse-failure branch; the
variant proxy of part_003 delivers the received payload on parse failure but
the re-serialized JSON on parse success, which can differ from the received
payload. -/
theorem c7_passthrough_amended :
    (∀ data, onPulseMessage data = data) ∧
      ∀ data, parseJson data = none → onPulseMessageStt data = data := by
  constructor
  · intro d
    unfold onPulseMessage
    cases parseJson d <;> rfl
  · intro d h
    unfold onPulseMessageStt
    rw [h]

theorem c7_passthrough_witness :
    parseJson "raw" = none ∧ onPulseMessage "raw" = "raw" ∧
      onPulseMessageStt "raw" = "raw" :=
  ⟨by decide, c7_passthrough_amended.1 "raw", c7_passthrough_amended.2 "raw" (by decide)⟩

/-- C1 counterexample: when the upstream connection closes on a session whose
client connection is OPEN, the only code that runs is the pulseWs close
handler, which sends a closed notification and leaves the client connection
OPEN; the claim says the client connection is then closed. -/
theorem c1_upstream_close_leaves_client_open :
    (onPulseClose (Session.mk WsState.OPEN WsState.OPEN []) 1006 "gone").client =
        WsState.OPEN ∧
      WsState.OPEN ≠ WsState.CLOSED := by
  decide

/-- C1 (amended): closing the client connection closes the paired upstream
connection when that connection is OPEN — the handler moves it to CLOSING and
the transport close completes to CLOSED one event later — whereas closing the
upstream side does not change the state of the client connection. -/
theorem c1_close_propagation_amended (s : Session) (code : Int) (reason : String)
    (h : s.pulse = WsState.OPEN) :
    (onClientClose s).client = WsState.CLOSED ∧
    (onClientClose s).pulse = WsState.CLOSING ∧
    (onPulseClose (onClientClose s) code reason).pulse = WsState.CLOSED ∧
    (onPulseClose s code reason).client = s.client := by
  unfold onClientClose onPulseClose
  simp [h]

theorem c1_close_propagation_witness :
    (Session.mk WsState.OPEN WsState.OPEN []).pulse = WsState.OPEN ∧
      (onClientClose (Session.mk WsState.OPEN WsState.OPEN [])).pulse = WsState.CLOSING :=
  ⟨rfl,
    (c1_close_propagation_amended (Session.mk WsState.OPEN WsState.OPEN []) 1000 "" rfl).2.1⟩

/-- C4 counterexample: after an upstream error the client receives the single
structured error event, but the session is not then closed: even after the
upstream transport closes, the client connection is still OPEN, because no
handler closes it; the claim says the session closes within one tick. -/
theorem c4_error_event_no_close :
    (onPulseError (Session.mk WsState.OPEN WsState.OPEN []) "boom").toClient =
        [errorEvent "boom"] ∧
      (onPulseClose (onPulseError (Session.mk WsState.OPEN WsState.OPEN []) "boom")
          1006 "").client = WsState.OPEN := by
  decide

/-- C4 (amended): on an upstream connection error the client session receives
exactly one structured error event, and the error handler changes neither
connection state; the subsequent upstream close only appends a closed
notification and leaves the client connection state unchanged. -/
theorem c4_single_error_event_amended (s : Session) (message : String)
    (code : Int) (reason : String) :
    (onPulseError s message).toClient = s.toClient ++ [errorEvent message] ∧
    (onPulseError s message).client = s.client ∧
    (onPulseError s message).pulse = s.pulse ∧
    (onPulseClose (onPulseError s message) code reason).client = s.client := by
  unfold onPulseError onPulseClose
  exact ⟨rfl, rfl, rfl, rfl⟩

/-- C10: the upstream URL built by ws-proxy.js always carries
sample_rate 16000 and encoding linear16, whatever query the client supplied,
and two client queries with the same effective language produce the same
upstream URL — only the language parameter (defaulting to en) influences
it. -/
theorem c10_upstream_url_params (query : List (String × String)) :
    (pulseParams query).lookup "sample_rate" = some "16000" ∧
    (pulseParams query).lookup "encoding" = some "linear16" ∧
    ∀ query2, languageOf query = languageOf query2 → pulseUrl query = pulseUrl query2 := by
  refine ⟨rfl, rfl, ?_⟩
  intro query2 h
  unfold pulseUrl encodeParams pulseParams
  rw [h]

theorem c10_upstream_url_params_witness :
    languageOf [("sample_rate", "8000"), ("language", "en")] = languageOf [("language", "en")] ∧
      pulseUrl [("sample_rate", "8000"), ("language", "en")] = pulseUrl [("language", "en")] :=
  ⟨by decide,
    (c10_upstream_url_params [("sample_rate", "8000"), ("language", "en")]).2.2
      [("language", "en")] (by decide)⟩

theorem clamp_bounds (x : ℚ) : -1 ≤ max (-1) (min 1 x) ∧ max (-1) (min 1 x) ≤ 1 :=
  ⟨le_max_left _ _, max_le (by norm_num) (min_le_left _ _)⟩

theorem toInt16_eq_of_bounds {t : ℤ} (h1 : -32768 ≤ t) (h2 : t ≤ 32767) :
    (t + 32768) % 65536 - 32768 = t := by
  rw [Int.emod_eq_of_lt (by omega) (by omega)]
  omega

/-- C6: every 16-bit sample the encoder produces lies within the signed
16-bit range, for every input sample, including inputs outside the unit
interval: the clamp and the distinct scale factors 32768 and 32767 keep the
scaled value in range, so the Int16Array wrap never changes it. -/
theorem c6_pcm_range (x : ℚ) : -32768 ≤ pcmSample x ∧ pcmSample x ≤ 32767 := by
  unfold pcmSample toInt16 jsTrunc
  have h1 : -1 ≤ max (-1) (min 1 x) := (clamp_bounds x).1
  have h2 : max (-1) (min 1 x) ≤ 1 := (clamp_bounds x).2
  set s := max (-1) (min 1 x) with hs
  by_cases hneg : s < 0
  · simp only [if_pos hneg]
    have hq1 : (-32768 : ℚ) ≤ s * 32768 := by nlinarith
    have hq2 : s * 32768 < 0 := by nlinarith
    simp only [if_neg (not_le.mpr hq2)]
    have hc1 : (-32768 : ℤ) ≤ ⌈s * 32768⌉ := by
      have := le_trans hq1 (Int.le_ceil (s * 32768))
      exact_mod_cast this
    have hc2 : ⌈s * 32768⌉ ≤ 0 := Int.ceil_le.mpr (by push_cast; linarith)
    rw [toInt16_eq_of_bounds hc1 (by omega)]
    omega
  · simp only [if_neg hneg]
    push_neg at hneg
    have hq1 : (0 : ℚ) ≤ s * 32767 := by nlinarith
    have hq2 : s * 32767 ≤ 32767 := by nlinarith
    simp only [if_pos hq1]
    have hc1 : (0 : ℤ) ≤ ⌊s * 32767⌋ := Int.floor_nonneg.mpr hq1
    have hc2 : ⌊s * 32767⌋ ≤ 32767 := by
      have := le_trans (Int.floor_le (s * 32767)) hq2
      exact_mod_cast this
    rw [toInt16_eq_of_bounds (by omega) hc2]
    omega

/-- C9: the linear-interpolation resampler never reads outside the input
buffer: for a positive capture rate, a nonempty input and any output index
below newLength, both source indices are valid indices of the input, so the
embedded indexing never hits its out-of-bounds fallback. -/
theorem c9_resample_index_safe (R : ℚ) (len i : Nat) (hR : 0 < R)
    (hlen : 0 < len) (hi : i < newLengthAt R len) :
    0 ≤ srcIndexFloorAt R i ∧ srcIndexFloorAt R i < (len : ℤ) ∧
    0 ≤ srcIndexCeilAt R len i ∧ srcIndexCeilAt R len i < (len : ℤ) ∧
    (srcIndexFloorAt R i).toNat < len ∧ (srcIndexCeilAt R len i).toNat < len := by
  have hratio : (0 : ℚ) < R / 16000 := by positivity
  have hfl0 : 0 ≤ srcIndexFloorAt R i := by
    unfold srcIndexFloorAt
    exact Int.floor_nonneg.mpr (by positivity)
  have h1 : (i : ℤ) < jsRound ((len : ℚ) / (R / 16000)) := by
    unfold newLengthAt at hi
    omega
  have h2 : (i : ℚ) + 1 ≤ (len : ℚ) / (R / 16000) + 1 / 2 := by
    have hz : (i : ℤ) + 1 ≤ ⌊(len : ℚ) / (R / 16000) + 1 / 2⌋ := by
      unfold jsRound at h1
      omega
    have := Int.le_floor.mp hz
    push_cast at this
    linarith
  have h3 : (i : ℚ) * (R / 16000) < (len : ℚ) := by
    have hlt : (i : ℚ) < (len : ℚ) / (R / 16000) := by linarith
    calc (i : ℚ) * (R / 16000)
        < ((len : ℚ) / (R / 16000)) * (R / 16000) := mul_lt_mul_of_pos_right hlt hratio
      _ = (len : ℚ) := div_mul_cancel₀ _ (ne_of_gt hratio)
  have hfl : srcIndexFloorAt R i < (len : ℤ) := by
    unfold srcIndexFloorAt
    exact Int.floor_lt.mpr (by push_cast; exact h3)
  have hceil_lt : srcIndexCeilAt R len i < (len : ℤ) := by
    unfold srcIndexCeilAt
    exact lt_of_le_of_lt (min_le_right _ _) (by omega)
  have hceil0 : 0 ≤ srcIndexCeilAt R len i := by
    unfold srcIndexCeilAt
    apply le_min <;> omega
  refine ⟨hfl0, hfl, hceil0, hceil_lt, ?_, ?_⟩ <;> omega

theorem c9_resample_index_safe_witness :
    (0 : ℚ) < 48000 ∧ 0 < 3 ∧ 0 < newLengthAt 48000 3 ∧
      (0 ≤ srcIndexFloorAt 48000 0 ∧ srcIndexFloorAt 48000 0 < (3 : ℤ) ∧
        0 ≤ srcIndexCeilAt 48000 3 0 ∧ srcIndexCeilAt 48000 3 0 < (3 : ℤ) ∧
        (srcIndexFloorAt 48000 0).toNat < 3 ∧ (srcIndexCeilAt 48000 3 0).toNat < 3) :=
  ⟨by norm_num, by decide, by norm_num [newLengthAt, jsRound],
    c9_resample_index_safe 48000 3 0 (by norm_num) (by decide)
      (by norm_num [newLengthAt, jsRound])⟩

theorem getD_replicate_zero (len k : Nat) :
    (List.replicate len (0 : ℚ)).getD k 0 = 0 := by
  simp [List.getD]

theorem pcmSample_zero : pcmSample 0 = 0 := by
  unfold pcmSample toInt16 jsTrunc
  norm_num

theorem jsRound_natCast (n : Nat) : jsRound (n : ℚ) = n := by
  unfold jsRound
  rw [Int.floor_eq_iff]
  constructor
  · push_cast; linarith
  · push_cast; linarith

/-- C5: encoding a pure-silence buffer of any length at any positive capture
rate produces an all-zero 16-bit buffer whose length is the JavaScript round
of the input length times 16000 over the capture rate (the pass-through
branch at capture rate 16000 yields the same length). -/
theorem c5_silence_resample (len : Nat) (R : ℚ) (hR : 0 < R) :
    pcmEncode (resample (List.replicate len 0) R) =
      List.replicate ((jsRound ((len : ℚ) * 16000 / R)).toNat) 0 := by
  by_cases hEq : R = 16000
  · subst hEq
    rw [resample, if_neg (by simp)]
    have hr : (len : ℚ) * 16000 / 16000 = (len : ℚ) := by
      field_simp
    rw [hr, jsRound_natCast, Int.toNat_natCast]
    unfold pcmEncode
    rw [List.map_replicate, pcmSample_zero]
  · rw [resample, if_pos hEq]
    have hlen : (List.replicate len (0 : ℚ)).length = len := List.length_replicate _ _
    rw [hlen]
    have hnl : newLengthAt R len = (jsRound ((len : ℚ) * 16000 / R)).toNat := by
      unfold newLengthAt
      rw [div_div_eq_mul_div]
    unfold pcmEncode
    rw [List.map_map]
    have hmap : ((List.range (newLengthAt R len)).map
        (pcmSample ∘ fun (i : Nat) =>
          let srcIndex : ℚ := (i : ℚ) * (R / 16000)
          let fraction : ℚ := srcIndex - ((srcIndexFloorAt R i : ℤ) : ℚ)
          (List.replicate len (0 : ℚ)).getD (srcIndexFloorAt R i).toNat 0 * (1 - fraction) +
            (List.replicate len (0 : ℚ)).getD (srcIndexCeilAt R len i).toNat 0 * fraction))
        = (List.range (newLengthAt R len)).map (fun _ => (0 : ℤ)) := by
      apply List.map_congr_left
      intro i _
      simp only [Function.comp_apply, getD_replicate_zero]
      ring_nf
      exact pcmSample_zero
    rw [hmap, List.map_const', hnl]
    simp

theorem c5_silence_resample_witness :
    (0 : ℚ) < 48000 ∧
      pcmEncode (resample (List.replicate 5 0) 48000) =
        List.replicate ((jsRound ((5 : ℚ) * 16000 / 48000)).toNat) 0 :=
  ⟨by norm_num, c5_silence_resample 5 48000 (by norm_num)⟩

end PulseProxy

